import Mathlib

/-!
# LiveKit Operations & Monitoring Console — dashboard state verification

Shallow embedding of the console frontend's state handling:
the WebSocket message handler and REST actions of the `useMetrics` hook
(`frontend/src/hooks/useWebSocket.ts`), the reconnect loop of `useWebSocket`,
and the overall-health derivation of the `SystemHealth` component.

Numeric rate/quality fields (floating point in the source) are embedded as
rationals; timestamps and ids are strings, as in the source.  The locale
rendering `new Date(ts).toLocaleTimeString()` is kept abstract as a
formatting parameter `fmt : String → String`.
-/

namespace Console

/-- `ConnectionQuality` from `types` (part_001). -/
inductive ConnectionQuality where
  | excellent
  | good
  | poor
  | unknown
deriving DecidableEq, Repr

/-- `AlertSeverity` from `types`. -/
inductive AlertSeverity where
  | info
  | warning
  | critical
deriving DecidableEq, Repr

/-- `AlertStatus` from `types`. -/
inductive AlertStatus where
  | active
  | resolved
deriving DecidableEq, Repr

/-- `Participant` from `types`. -/
structure Participant where
  sid : String
  identity : String
  name : Option String
  joined_at : String
  connection_quality : ConnectionQuality
  is_publisher : Bool
  tracks_published : Nat
deriving DecidableEq, Repr

/-- `Room` from `types`. -/
structure Room where
  sid : String
  name : String
  created_at : String
  participant_count : Nat
  max_participants : Nat
  participants : List Participant
deriving DecidableEq, Repr

/-- `SystemMetrics` from `types`; float fields embedded as `ℚ`. -/
structure SystemMetrics where
  timestamp : String
  active_rooms : Nat
  total_participants : Nat
  join_rate : ℚ
  leave_rate : ℚ
  disconnect_rate : ℚ
  avg_room_duration_seconds : ℚ
  avg_connection_quality : ℚ
deriving DecidableEq, Repr

/-- `Alert` from `types`. -/
structure Alert where
  id : String
  severity : AlertSeverity
  status : AlertStatus
  title : String
  description : String
  room_name : Option String
  created_at : String
  resolved_at : Option String
deriving DecidableEq, Repr

/-- `ChartDataPoint` from `types`. -/
structure ChartDataPoint where
  time : String
  rooms : Nat
  participants : Nat
  joinRate : ℚ
  disconnectRate : ℚ
deriving DecidableEq, Repr

/-- The payload of a `room_update` message: `{ type: string; room: Room }`.
The `type` field is an arbitrary string in the source (compared against
the literals `room_started` / `room_finished`). -/
structure RoomUpdateData where
  type : String
  room : Room
deriving DecidableEq, Repr

/-- The server→client WebSocket envelope `{type, data}`.  The source's
`WebSocketMessageType` union lists `metrics_update | room_update | alert |
heartbeat | pong`; since the tag arrives as parsed JSON, any other string
tag can also reach the handler's `switch`, modelled by `other`. -/
inductive WsMessage where
  | metricsUpdate (data : SystemMetrics)
  | roomUpdate (data : RoomUpdateData)
  | alert (data : Alert)
  | heartbeat
  | pong
  | other (type : String)
deriving DecidableEq, Repr

/-- `ConnectionStatus` from `types`. -/
inductive ConnectionStatus where
  | connecting
  | connected
  | disconnected
  | error
deriving DecidableEq, Repr

/-- The state held by `useMetrics` in its five `useState` cells. -/
structure DashState where
  currentMetrics : Option SystemMetrics
  rooms : List Room
  activeAlerts : List Alert
  resolvedAlerts : List Alert
  chartData : List ChartDataPoint
deriving DecidableEq, Repr

/-- All `useState` cells start empty / null. -/
def initState : DashState :=
  { currentMetrics := none, rooms := [], activeAlerts := [], resolvedAlerts := [],
    chartData := [] }

/-- The chart point built from a metrics snapshot in the `metrics_update`
case (and in `refreshData`); `fmt` stands for
`ts => new Date(ts).toLocaleTimeString()`. -/
def mkChartPoint (fmt : String → String) (m : SystemMetrics) : ChartDataPoint :=
  { time := fmt m.timestamp, rooms := m.active_rooms, participants := m.total_participants,
    joinRate := m.join_rate, disconnectRate := m.disconnect_rate }

/-- The chart update of the `metrics_update` case:
`updated = [...prev, newPoint]; if (updated.length > 60) return updated.slice(-60)`. -/
def pushChartPoint (newPoint : ChartDataPoint) (prev : List ChartDataPoint) :
    List ChartDataPoint :=
  let updated := prev ++ [newPoint]
  if updated.length > 60 then updated.drop (updated.length - 60) else updated

/-- `handleMessage` of `useMetrics`: the `switch (message.type)` over the
incoming WebSocket envelope.  Unlisted tags (including `pong`) fall through
the `switch` unchanged. -/
def handleMessage (fmt : String → String) (message : WsMessage) (s : DashState) :
    DashState :=
  match message with
  | .metricsUpdate metrics =>
      { s with currentMetrics := some metrics,
               chartData := pushChartPoint (mkChartPoint fmt metrics) s.chartData }
  | .roomUpdate data =>
      if data.type = "room_started" then
        { s with rooms := s.rooms ++ [data.room] }
      else if data.type = "room_finished" then
        { s with rooms := s.rooms.filter (fun r => r.sid != data.room.sid) }
      else s
  | .alert alert =>
      if alert.status = .active then
        { s with activeAlerts :=
            if s.activeAlerts.any (fun a => a.id == alert.id) then s.activeAlerts
            else s.activeAlerts ++ [alert] }
      else
        { s with activeAlerts := s.activeAlerts.filter (fun a => a.id != alert.id),
                 resolvedAlerts :=
                   if s.resolvedAlerts.any (fun a => a.id == alert.id) then
                     s.resolvedAlerts
                   else (alert :: s.resolvedAlerts).take 20 }
  | .heartbeat => s
  | .pong => s
  | .other _ => s

/-- The client-side effect of `resolveAlert(alertId)` once the POST has
returned: `none` models a non-ok response (no state change), `some resolved`
models an ok response carrying the returned Alert JSON. -/
def applyResolveResponse (alertId : String) (response : Option Alert) (s : DashState) :
    DashState :=
  match response with
  | none => s
  | some resolved =>
      { s with activeAlerts := s.activeAlerts.filter (fun a => a.id != alertId),
               resolvedAlerts := (resolved :: s.resolvedAlerts).take 20 }

/-- Modelled from the spec: the backend `POST alert/{id}/resolve` endpoint is
not under `src/` (only the frontend is); per the spec it returns "the
now-resolved Alert, or not-found if the id is unknown or already resolved",
stamping `resolved_at` and flipping the status.  Only active alerts can be
resolved, so the lookup is over the active-alert list. -/
def serverResolve (alertId : String) (active : List Alert) (now : String) :
    Option Alert :=
  (active.find? (fun a => a.id == alertId)).map
    (fun a => { a with status := .resolved, resolved_at := some now })

/-- The full round trip of `resolveAlert`: the dashboard's active list is the
mirror of the server's, the spec-modelled endpoint answers, and the client
applies the response. -/
def resolveAlertRoundTrip (alertId : String) (now : String) (s : DashState) :
    DashState :=
  applyResolveResponse alertId (serverResolve alertId s.activeAlerts now) s

/-- The four optional fetch responses consumed by `refreshData`; `none`
models a non-ok response for that endpoint (the corresponding state cell is
left untouched). -/
structure RefreshResponses where
  metrics : Option SystemMetrics
  rooms : Option (List Room)
  alerts : Option (List Alert × List Alert)
  history : Option (List SystemMetrics)
deriving Repr

/-- `refreshData` of `useMetrics`: each ok response overwrites the matching
state cell; the history response is mapped to chart points and installed as
the whole chart. -/
def refreshData (fmt : String → String) (r : RefreshResponses) (s : DashState) :
    DashState :=
  let s1 := match r.metrics with
    | some m => { s with currentMetrics := some m }
    | none => s
  let s2 := match r.rooms with
    | some rs => { s1 with rooms := rs }
    | none => s1
  let s3 := match r.alerts with
    | some ar => { s2 with activeAlerts := ar.1, resolvedAlerts := ar.2 }
    | none => s2
  match r.history with
  | some h => { s3 with chartData := h.map (mkChartPoint fmt) }
  | none => s3

/-- One alert-relevant dashboard operation: an incoming WebSocket message or
a completed manual resolve call (with the server's response). -/
inductive DashOp where
  | msg (m : WsMessage)
  | resolve (alertId : String) (response : Option Alert)

/-- Apply one operation to the dashboard state. -/
def stepOp (fmt : String → String) (s : DashState) (op : DashOp) : DashState :=
  match op with
  | .msg m => handleMessage fmt m s
  | .resolve alertId response => applyResolveResponse alertId response s

/-- Replay a sequence of WebSocket messages through `handleMessage`. -/
def replayMsgs (fmt : String → String) (ms : List WsMessage) (s : DashState) :
    DashState :=
  ms.foldl (fun s m => handleMessage fmt m s) s

/-- Replay a sequence of message / resolve operations. -/
def replayAlertOps (fmt : String → String) (ops : List DashOp) (s : DashState) :
    DashState :=
  ops.foldl (stepOp fmt) s

/-- One fold step of the specification-side room-liveness characterization:
a `room_started` notice for the id turns liveness on, a `room_finished`
notice turns it off, every other message leaves it alone. -/
def liveStep (sid : String) (live : Bool) (m : WsMessage) : Bool :=
  match m with
  | .roomUpdate d =>
      if d.room.sid == sid then
        if d.type == "room_started" then true
        else if d.type == "room_finished" then false
        else live
      else live
  | _ => live

/-- Specification-side characterization for the rooms list: a room id is
live after replay iff the last `room_update` notice concerning it announced
`room_started` (a `room_finished` notice, or no notice at all, leaves it
out). -/
def announcedLive (sid : String) (ms : List WsMessage) : Bool :=
  ms.foldl (liveStep sid) false

/-- The chart points contributed by the `metrics_update` messages of a
sequence, in arrival order. -/
def chartPoints (fmt : String → String) (ms : List WsMessage) : List ChartDataPoint :=
  ms.filterMap (fun m =>
    match m with
    | .metricsUpdate d => some (mkChartPoint fmt d)
    | _ => none)

/-- The suffix of the `n` most recent elements (all of them when `n` exceeds
the length), mirroring JavaScript's `slice(-n)`. -/
def lastN (n : Nat) (l : List α) : List α := l.drop (l.length - n)

/-! ## Concrete fixtures used by witnesses and counterexamples -/

/-- A concrete room value. -/
def sampleRoom : Room :=
  { sid := "RM_1", name := "standup", created_at := "2026-01-01T00:00:00Z",
    participant_count := 0, max_participants := 10, participants := [] }

/-- A second concrete room value with a different sid. -/
def sampleRoom2 : Room :=
  { sid := "RM_2", name := "retro", created_at := "2026-01-01T00:05:00Z",
    participant_count := 0, max_participants := 10, participants := [] }

/-- A concrete active alert value. -/
def sampleAlert : Alert :=
  { id := "alert-1", severity := .warning, status := .active,
    title := "High disconnect rate", description := "rate above threshold",
    room_name := none, created_at := "2026-01-01T00:01:00Z", resolved_at := none }

/-- A concrete metrics snapshot with whole-number rates. -/
def sampleMetrics : SystemMetrics :=
  { timestamp := "2026-01-01T00:02:00Z", active_rooms := 2, total_participants := 5,
    join_rate := 1, leave_rate := 1, disconnect_rate := 0,
    avg_room_duration_seconds := 10, avg_connection_quality := 1 }

/-! ## Reconnect loop of `useWebSocket` -/

/-- Default `maxReconnectAttempts` option of `useWebSocket`. -/
def maxReconnectAttempts : Nat := 10

/-- Default `reconnectInterval` option of `useWebSocket` (milliseconds). -/
def reconnectInterval : Nat := 3000

/-- The delay (in ms) passed to `setTimeout` when scheduling the retry after
the `attempt`-th failed connection: the source always passes
`reconnectInterval`, independent of the attempt counter. -/
def reconnectDelay (_attempt : Nat) : Nat := reconnectInterval

/-- The client-visible state of the `useWebSocket` reconnect loop: the
`status` state cell, the `reconnectAttemptsRef` counter, and whether a
reconnect `setTimeout` is currently pending. -/
structure WsClientState where
  status : ConnectionStatus
  reconnectAttempts : Nat
  retryScheduled : Bool
deriving DecidableEq, Repr

/-- The signals driving the reconnect loop: `connect()` being entered, the
channel's open/close/error callbacks, and the pending reconnect timer
firing. -/
inductive WsSignal where
  | connectStart
  | chanOpened
  | chanClosed
  | chanErrored
  | retryFired
deriving DecidableEq, Repr

/-- One transition of the reconnect loop, read off the `connect` callback of
`useWebSocket`: `connect` sets status `connecting`; `onopen` sets
`connected` and zeroes the attempt counter; `onclose` sets `disconnected`
and, only while the counter is below `maxReconnectAttempts`, increments it
and schedules a retry (`setTimeout(connect, reconnectInterval)`); `onerror`
sets status `error`; the timer firing re-enters `connect`. -/
def wsStep (s : WsClientState) : WsSignal → WsClientState
  | .connectStart => { s with status := .connecting }
  | .chanOpened => { s with status := .connected, reconnectAttempts := 0 }
  | .chanClosed =>
      if s.reconnectAttempts < maxReconnectAttempts then
        { status := .disconnected, reconnectAttempts := s.reconnectAttempts + 1,
          retryScheduled := true }
      else
        { s with status := .disconnected, retryScheduled := false }
  | .chanErrored => { s with status := .error }
  | .retryFired => { s with status := .connecting, retryScheduled := false }

/-! ## Ping cadence of `useWebSocket` -/

/-- The `setInterval` period of the ping effect (milliseconds). -/
def pingIntervalMs : Nat := 30000

/-- Events seen by the ping effect: the `status` dependency changing (which
tears down the old interval and installs one only when the new status is
`connected`), and the interval timer firing. -/
inductive PingEvent where
  | statusChange (st : ConnectionStatus)
  | intervalTick
deriving DecidableEq, Repr

/-- Connection status together with the trace of message type tags sent so
far: the only `sendMessage` call site in the hooks is the ping effect's
`sendMessage({ type: 'ping' })`. -/
structure PingTraceState where
  status : ConnectionStatus
  sent : List String
deriving DecidableEq, Repr

/-- One step of the ping effect: a status change only swaps the interval
(sending nothing); a tick sends `ping` when the effect is installed — i.e.
exactly when the status is `connected` (`if (status !== 'connected') return`)
— and nothing otherwise. -/
def pingStep (s : PingTraceState) : PingEvent → PingTraceState
  | .statusChange st => { status := st, sent := s.sent }
  | .intervalTick =>
      if s.status = .connected then { s with sent := s.sent ++ ["ping"] } else s

/-- Replay a sequence of ping-effect events from an initial status with an
empty outbound trace. -/
def pingReplay (st0 : ConnectionStatus) (evs : List PingEvent) : PingTraceState :=
  evs.foldl pingStep { status := st0, sent := [] }

/-! ## Overall health derivation of `SystemHealth` -/

/-- The three health levels of `getOverallHealth`. -/
inductive HealthStatus where
  | healthy
  | warning
  | critical
deriving DecidableEq, Repr

/-- `getOverallHealth` of the `SystemHealth` component (part_002): status and
label derived from the WebSocket connection status, the current metrics
snapshot (possibly null), and the active-alert count. -/
def getOverallHealth (connectionStatus : ConnectionStatus)
    (metrics : Option SystemMetrics) (activeAlertCount : Nat) :
    HealthStatus × String :=
  if connectionStatus ≠ .connected then
    (.critical, "Disconnected")
  else if activeAlertCount > 0 then
    (.warning, "Issues Detected")
  else
    match metrics with
    | some m =>
        if m.avg_connection_quality < 1/2 then (.warning, "Degraded Performance")
        else (.healthy, "All Systems Operational")
    | none => (.healthy, "All Systems Operational")

/-! ## Theorems -/

/-- Claim C8: handling a heartbeat message, or a message of any kind outside
the four handled kinds (including `pong`), is a no-op: the current metrics,
rooms list, active and resolved alert lists, and chart data all remain
unchanged, and the handler is total (never a failure). -/
theorem handleMessage_unknown_noop (fmt : String → String) (t : String)
    (s : DashState) :
    handleMessage fmt .heartbeat s = s ∧ handleMessage fmt .pong s = s ∧
      handleMessage fmt (.other t) s = s :=
  ⟨rfl, rfl, rfl⟩

/-- Claim C10: delivering an active-alert message whose id is already in the
active list is idempotent — the whole dashboard state is unchanged, so no
second entry with that id is ever added. -/
theorem alert_duplicate_idempotent (fmt : String → String) (al : Alert)
    (s : DashState) (hact : al.status = .active)
    (hdup : ∃ b ∈ s.activeAlerts, b.id = al.id) :
    handleMessage fmt (.alert al) s = s := by
  have hany : s.activeAlerts.any (fun a => a.id == al.id) = true := by
    rcases hdup with ⟨b, hb, hid⟩
    exact List.any_eq_true.mpr ⟨b, hb, by simp [hid]⟩
  simp [handleMessage, hact, hany]

/-- Claim C10 witness: a concrete duplicate delivery of an active alert is a
no-op. -/
theorem alert_duplicate_idempotent_witness :
    handleMessage id (.alert sampleAlert)
        { initState with activeAlerts := [sampleAlert] } =
      { initState with activeAlerts := [sampleAlert] } :=
  alert_duplicate_idempotent id sampleAlert
    { initState with activeAlerts := [sampleAlert] } (by decide)
    ⟨sampleAlert, by simp, rfl⟩

/-- Claim C2 counterexample: a `room_started` notice whose sid is already in
the rooms list is NOT rejected — the handler appends a second copy, so the
state changes. -/
theorem room_started_duplicate_not_ignored :
    (handleMessage id (.roomUpdate ⟨"room_started", sampleRoom⟩)
        { initState with rooms := [sampleRoom] }).rooms = [sampleRoom, sampleRoom] ∧
      handleMessage id (.roomUpdate ⟨"room_started", sampleRoom⟩)
          { initState with rooms := [sampleRoom] } ≠
        { initState with rooms := [sampleRoom] } := by
  decide

/-- Claim C2 (amended): a `room_started` notice is appended unconditionally;
when its sid is already present this produces a duplicate list entry, and
only the SET of room sids is unchanged. -/
theorem room_started_duplicate_appends (fmt : String → String)
    (d : RoomUpdateData) (s : DashState) (ht : d.type = "room_started")
    (hdup : ∃ r ∈ s.rooms, r.sid = d.room.sid) :
    (handleMessage fmt (.roomUpdate d) s).rooms = s.rooms ++ [d.room] ∧
      ∀ x, (∃ r ∈ (handleMessage fmt (.roomUpdate d) s).rooms, r.sid = x) ↔
        ∃ r ∈ s.rooms, r.sid = x := by
  have happ : (handleMessage fmt (.roomUpdate d) s).rooms = s.rooms ++ [d.room] := by
    simp [handleMessage, ht]
  refine ⟨happ, fun x => ?_⟩
  rw [happ]
  constructor
  · rintro ⟨r, hr, hx⟩
    rcases List.mem_append.mp hr with hmem | hmem
    · exact ⟨r, hmem, hx⟩
    · rcases hdup with ⟨r', hr', hsid⟩
      have : r = d.room := by simpa using hmem
      exact ⟨r', hr', by rw [hsid, ← this, hx]⟩
  · rintro ⟨r, hr, hx⟩
    exact ⟨r, List.mem_append.mpr (Or.inl hr), hx⟩

/-- Claim C2 (amended) witness: on a concrete duplicate `room_started`, the
rooms list gains a second copy while the set of sids is unchanged. -/
theorem room_started_duplicate_appends_witness :
    (handleMessage id (.roomUpdate ⟨"room_started", sampleRoom⟩)
        { initState with rooms := [sampleRoom] }).rooms = [sampleRoom, sampleRoom] ∧
      ((∃ r ∈ (handleMessage id (.roomUpdate ⟨"room_started", sampleRoom⟩)
          { initState with rooms := [sampleRoom] }).rooms, r.sid = "RM_2") ↔
        ∃ r ∈ [sampleRoom], r.sid = "RM_2") := by
  have h := room_started_duplicate_appends id ⟨"room_started", sampleRoom⟩
    { initState with rooms := [sampleRoom] } rfl ⟨sampleRoom, by simp, rfl⟩
  exact ⟨h.1, h.2 "RM_2"⟩

/-- Claim C9: the overall-health derivation reports critical exactly when
the connection status is not connected; given a connected status it reports
warning exactly when the active-alert count is positive or the snapshot
exists with average quality below 1/2, healthy exactly otherwise; a
non-connected console never reports healthy. -/
theorem getOverallHealth_characterization (st : ConnectionStatus)
    (m : Option SystemMetrics) (c : Nat) :
    ((getOverallHealth st m c).1 = .critical ↔ st ≠ .connected) ∧
      (st = .connected →
        ((getOverallHealth st m c).1 = .warning ↔
          (0 < c ∨ ∃ mm, m = some mm ∧ mm.avg_connection_quality < 1/2))) ∧
      (st = .connected →
        ((getOverallHealth st m c).1 = .healthy ↔
          (c = 0 ∧ ∀ mm, m = some mm → ¬ mm.avg_connection_quality < 1/2))) ∧
      (st ≠ .connected → (getOverallHealth st m c).1 ≠ .healthy) := by
  by_cases hst : st = .connected
  · subst hst
    rcases m with _ | mm
    · by_cases hc : c = 0
      · subst hc; simp [getOverallHealth]
      · have hc' : 0 < c := Nat.pos_of_ne_zero hc
        simp [getOverallHealth, hc, hc']
    · by_cases hc : c = 0
      · subst hc
        by_cases hq : mm.avg_connection_quality < 2⁻¹
        · simp [getOverallHealth, hq]
        · simp [getOverallHealth, hq]
          exact le_of_not_lt hq
      · have hc' : 0 < c := Nat.pos_of_ne_zero hc
        by_cases hq : mm.avg_connection_quality < 2⁻¹ <;>
          simp [getOverallHealth, hc, hc', hq]
  · simp [getOverallHealth, hst]

/-- Claim C9 witness: concrete evaluations — disconnected with no alerts is
critical (never healthy), connected with no alerts and no snapshot is
healthy, connected with a positive alert count is warning. -/
theorem getOverallHealth_characterization_witness :
    (getOverallHealth .disconnected none 0).1 = .critical ∧
      (getOverallHealth .connected none 0).1 = .healthy ∧
      (getOverallHealth .connected (some sampleMetrics) 3).1 = .warning := by
  refine ⟨?_, ?_, ?_⟩
  · exact (getOverallHealth_characterization .disconnected none 0).1.mpr (by decide)
  · exact ((getOverallHealth_characterization .connected none 0).2.2.1 rfl).mpr
      ⟨rfl, by simp⟩
  · exact ((getOverallHealth_characterization .connected (some sampleMetrics) 3).2.1
      rfl).mpr (Or.inl (by decide))

/-- Claim C4: resolving an alert id with no matching active alert is a
not-found miss (the spec-modelled endpoint returns nothing) and leaves all
dashboard state unchanged; a successful resolution removes the alert from
the active list, prepends the now-resolved alert to the resolved list
(capped at 20), and touches nothing else. -/
theorem resolveAlert_miss_noop_hit_moves (alertId now : String) (s : DashState) :
    ((∀ a ∈ s.activeAlerts, a.id ≠ alertId) →
        serverResolve alertId s.activeAlerts now = none ∧
          resolveAlertRoundTrip alertId now s = s) ∧
      ∀ res, serverResolve alertId s.activeAlerts now = some res →
        res.status = .resolved ∧ res.resolved_at = some now ∧
          (resolveAlertRoundTrip alertId now s).activeAlerts =
            s.activeAlerts.filter (fun a => a.id != alertId) ∧
          (resolveAlertRoundTrip alertId now s).resolvedAlerts =
            (res :: s.resolvedAlerts).take 20 ∧
          (resolveAlertRoundTrip alertId now s).currentMetrics = s.currentMetrics ∧
          (resolveAlertRoundTrip alertId now s).rooms = s.rooms ∧
          (resolveAlertRoundTrip alertId now s).chartData = s.chartData := by
  constructor
  · intro h
    have hf : s.activeAlerts.find? (fun a => a.id == alertId) = none := by
      rw [List.find?_eq_none]
      intro a ha
      simpa using h a ha
    have hs : serverResolve alertId s.activeAlerts now = none := by
      simp [serverResolve, hf]
    exact ⟨hs, by simp [resolveAlertRoundTrip, hs, applyResolveResponse]⟩
  · intro res hres
    obtain ⟨a, _, hfa⟩ := Option.map_eq_some'.mp hres
    refine ⟨by rw [← hfa], by rw [← hfa], ?_, ?_, ?_, ?_, ?_⟩ <;>
      simp [resolveAlertRoundTrip, hres, applyResolveResponse]

/-- Claim C4 witness: with one concrete active alert, resolving an unknown
id is a no-op, while resolving the live id empties the active list and
installs the resolved alert at the head of the resolved list. -/
theorem resolveAlert_miss_noop_hit_moves_witness :
    resolveAlertRoundTrip "zz" "2026-01-01T01:00:00Z"
        { initState with activeAlerts := [sampleAlert] } =
      { initState with activeAlerts := [sampleAlert] } ∧
      (resolveAlertRoundTrip "alert-1" "2026-01-01T01:00:00Z"
          { initState with activeAlerts := [sampleAlert] }).activeAlerts = [] ∧
      (resolveAlertRoundTrip "alert-1" "2026-01-01T01:00:00Z"
          { initState with activeAlerts := [sampleAlert] }).resolvedAlerts =
        [{ sampleAlert with
             status := .resolved,
             resolved_at := some "2026-01-01T01:00:00Z" }] := by
  have h1 := (resolveAlert_miss_noop_hit_moves "zz" "2026-01-01T01:00:00Z"
    { initState with activeAlerts := [sampleAlert] }).1 (by decide)
  have h2 := (resolveAlert_miss_noop_hit_moves "alert-1" "2026-01-01T01:00:00Z"
    { initState with activeAlerts := [sampleAlert] }).2
    { sampleAlert with status := .resolved, resolved_at := some "2026-01-01T01:00:00Z" }
    (by decide)
  exact ⟨h1.2, h2.2.2.1.trans (by decide), h2.2.2.2.1.trans (by decide)⟩

/-- Claim C5 counterexample: the retry delay passed to the reconnect timer
is the constant reconnectInterval — the delay after the second failure
equals the delay after the first (both 3000 ms), so the backoff is not
exponential. -/
theorem reconnectDelay_not_exponential :
    reconnectDelay 1 = 3000 ∧ reconnectDelay 2 = 3000 ∧
      ¬ reconnectDelay 1 < reconnectDelay 2 := by
  decide

/-- Claim C5 (amended): the reconnect loop is a state machine over
{connecting, connected, disconnected, error} driven by channel
open/close/error signals; after a close it retries on a FIXED-interval
timer (constant reconnectInterval, default 3000 ms) with attempts capped at
maxReconnectAttempts — no further retry is scheduled once the cap is
reached, and a successful open resets the attempt counter. -/
theorem wsStep_reconnect_machine (s : WsClientState) :
    ((wsStep s .chanOpened).status = .connected ∧
        (wsStep s .chanOpened).reconnectAttempts = 0) ∧
      (wsStep s .chanClosed).status = .disconnected ∧
      (s.reconnectAttempts < maxReconnectAttempts →
        (wsStep s .chanClosed).retryScheduled = true ∧
          (wsStep s .chanClosed).reconnectAttempts = s.reconnectAttempts + 1) ∧
      (maxReconnectAttempts ≤ s.reconnectAttempts →
        (wsStep s .chanClosed).retryScheduled = false ∧
          (wsStep s .chanClosed).reconnectAttempts = s.reconnectAttempts) ∧
      (wsStep s .chanErrored).status = .error ∧
      (wsStep s .retryFired).status = .connecting ∧
      (wsStep s .connectStart).status = .connecting ∧
      ∀ n, reconnectDelay n = reconnectInterval := by
  refine ⟨⟨rfl, rfl⟩, ?_, ?_, ?_, rfl, rfl, rfl, fun _ => rfl⟩
  · simp only [wsStep]
    split <;> rfl
  · intro h
    simp [wsStep, h]
  · intro h
    simp [wsStep, Nat.not_lt.mpr h]

/-- Claim C5 (amended) witness: a close at attempt 3 schedules a retry and
bumps the counter to 4; a close at the cap (10) schedules none. -/
theorem wsStep_reconnect_machine_witness :
    (wsStep ⟨.connected, 3, false⟩ .chanClosed).reconnectAttempts = 4 ∧
      (wsStep ⟨.connected, 3, false⟩ .chanClosed).retryScheduled = true ∧
      (wsStep ⟨.disconnected, 10, false⟩ .chanClosed).retryScheduled = false := by
  have h1 := (wsStep_reconnect_machine ⟨.connected, 3, false⟩).2.2.1 (by decide)
  have h2 := (wsStep_reconnect_machine ⟨.disconnected, 10, false⟩).2.2.2.1 (by decide)
  exact ⟨h1.2, h1.1, h2.1⟩

/-- Every message in the outbound trace of a ping-effect replay is a ping,
provided the starting trace only holds pings. -/
theorem pingFold_sent_all_ping :
    ∀ (evs : List PingEvent) (s : PingTraceState),
      (∀ m ∈ s.sent, m = "ping") →
      ∀ m ∈ (evs.foldl pingStep s).sent, m = "ping" := by
  intro evs
  induction evs with
  | nil => intro s h; simpa using h
  | cons e evs ih =>
    intro s h
    refine ih _ ?_
    cases e with
    | statusChange st => simpa [pingStep] using h
    | intervalTick =>
      by_cases hc : s.status = .connected
      · intro m hm
        simp [pingStep, hc] at hm
        rcases hm with hm | hm
        · exact h m hm
        · exact hm
      · simpa [pingStep, hc] using h

/-- Claim C6: the only outbound traffic of the client is the liveness ping
on the fixed 30-second cadence — every message in the replayed outbound
trace is a ping, an interval tick sends exactly one ping when connected and
nothing when the status is anything else (the timer is torn down outside
the connected state), and the interval period is 30000 ms. -/
theorem ping_only_outbound (st0 : ConnectionStatus) (evs : List PingEvent) :
    (∀ m ∈ (pingReplay st0 evs).sent, m = "ping") ∧
      (∀ s : PingTraceState, s.status ≠ .connected → pingStep s .intervalTick = s) ∧
      (∀ s : PingTraceState, s.status = .connected →
        (pingStep s .intervalTick).sent = s.sent ++ ["ping"]) ∧
      (∀ (s : PingTraceState) (st : ConnectionStatus),
        (pingStep s (.statusChange st)).sent = s.sent ∧
          (pingStep s (.statusChange st)).status = st) ∧
      pingIntervalMs = 30000 := by
  refine ⟨pingFold_sent_all_ping evs _ (by simp), ?_, ?_, fun s st => ⟨rfl, rfl⟩, rfl⟩
  · intro s h
    simp [pingStep, h]
  · intro s h
    simp [pingStep, h]

/-- Claim C6 witness: a tick while connecting sends nothing; a tick while
connected appends exactly one ping. -/
theorem ping_only_outbound_witness :
    pingStep ⟨.connecting, []⟩ .intervalTick = ⟨.connecting, []⟩ ∧
      (pingStep ⟨.connected, []⟩ .intervalTick).sent = ["ping"] := by
  have h := ping_only_outbound .connected [PingEvent.intervalTick]
  exact ⟨h.2.1 ⟨.connecting, []⟩ (by decide), h.2.2.1 ⟨.connected, []⟩ rfl⟩

/-- A single dashboard operation either leaves the resolved list untouched
or prepends one alert and truncates to 20 entries. -/
theorem stepOp_resolved_shape (fmt : String → String) (op : DashOp) (s : DashState) :
    (stepOp fmt s op).resolvedAlerts = s.resolvedAlerts ∨
      ∃ a, (stepOp fmt s op).resolvedAlerts = (a :: s.resolvedAlerts).take 20 := by
  cases op with
  | msg m =>
    cases m with
    | metricsUpdate d => exact Or.inl rfl
    | roomUpdate d =>
      left
      simp only [stepOp, handleMessage]
      split_ifs <;> rfl
    | alert a =>
      by_cases ha : a.status = .active
      · left
        simp [stepOp, handleMessage, ha]
      · by_cases hex : s.resolvedAlerts.any (fun b => b.id == a.id)
        · left
          simp [stepOp, handleMessage, ha, hex]
        · right
          exact ⟨a, by simp [stepOp, handleMessage, ha, hex]⟩
    | heartbeat => exact Or.inl rfl
    | pong => exact Or.inl rfl
    | other t => exact Or.inl rfl
  | resolve alertId resp =>
    cases resp with
    | none => exact Or.inl rfl
    | some a => exact Or.inr ⟨a, rfl⟩

/-- The 20-entry bound on the resolved list is preserved by any replay. -/
theorem replayAlertOps_resolved_le (fmt : String → String) :
    ∀ (ops : List DashOp) (s : DashState),
      s.resolvedAlerts.length ≤ 20 →
      (replayAlertOps fmt ops s).resolvedAlerts.length ≤ 20 := by
  intro ops
  induction ops with
  | nil => intro s h; simpa [replayAlertOps] using h
  | cons op ops ih =>
    intro s h
    have hstep : (stepOp fmt s op).resolvedAlerts.length ≤ 20 := by
      rcases stepOp_resolved_shape fmt op s with heq | ⟨a, heq⟩
      · rw [heq]; exact h
      · rw [heq]; simp [List.length_take]
    have : replayAlertOps fmt (op :: ops) s = replayAlertOps fmt ops (stepOp fmt s op) := rfl
    rw [this]
    exact ih _ hstep

/-- Claim C3: after any sequence of alert messages and manual resolve calls
from the initial state, the resolved list holds at most 20 entries; every
step that changes it prepends the newly resolved alert (most recent first)
and truncates at 20, evicting the oldest tail entry. -/
theorem resolvedAlerts_bounded (fmt : String → String) (ops : List DashOp) :
    (replayAlertOps fmt ops initState).resolvedAlerts.length ≤ 20 ∧
      ∀ (op : DashOp) (s : DashState),
        (stepOp fmt s op).resolvedAlerts = s.resolvedAlerts ∨
          ∃ a, (stepOp fmt s op).resolvedAlerts = (a :: s.resolvedAlerts).take 20 :=
  ⟨replayAlertOps_resolved_le fmt ops initState (by simp [initState]),
    fun op s => stepOp_resolved_shape fmt op s⟩

/-- Filtering out one sid and then testing for another sid: the test
survives exactly when the two sids differ and the unfiltered list already
matched. -/
theorem any_filter_sid (x sid : String) (l : List Room) :
    (l.filter (fun r => r.sid != x)).any (fun r => r.sid == sid) =
      ((sid != x) && l.any (fun r => r.sid == sid)) := by
  rw [List.any_filter]
  induction l with
  | nil => simp
  | cons r t ih =>
    simp only [List.any_cons, ih]
    by_cases hr : r.sid = x
    · have hbx : (r.sid != x) = false := by simp [hr]
      by_cases hs : sid = x
      · have hsx : (sid != x) = false := by simp [hs]
        simp [hbx, hsx]
      · have hxs : (r.sid == sid) = false := by
          rw [hr]
          simp [Ne.symm hs]
        simp [hbx, hxs]
    · have hbx : (r.sid != x) = true := by simp [hr]
      by_cases hs : r.sid = sid
      · have hsx : (sid != x) = true := by simp [hs ▸ hr]
        simp [hbx, hs, hsx]
      · have hxs : (r.sid == sid) = false := by simp [hs]
        simp [hbx, hxs]

/-- One handled message transforms the Boolean "some live room has this
sid" exactly as the specification-side `liveStep` does. -/
theorem handleMessage_rooms_any (fmt : String → String) (m : WsMessage)
    (s : DashState) (sid : String) :
    ((handleMessage fmt m s).rooms.any (fun r => r.sid == sid)) =
      liveStep sid (s.rooms.any (fun r => r.sid == sid)) m := by
  cases m with
  | metricsUpdate d => rfl
  | roomUpdate d =>
    by_cases ht : d.type = "room_started"
    · by_cases hsid : d.room.sid = sid <;>
        simp [handleMessage, liveStep, ht, hsid]
    · by_cases ht2 : d.type = "room_finished"
      · have hfl : (handleMessage fmt (.roomUpdate d) s).rooms =
            s.rooms.filter (fun r => r.sid != d.room.sid) := by
          simp [handleMessage, ht, ht2]
        rw [hfl, any_filter_sid]
        by_cases hsid : d.room.sid = sid
        · subst hsid
          simp [liveStep, ht, ht2]
        · have h1 : (sid != d.room.sid) = true := by simp [Ne.symm hsid]
          have h2 : (d.room.sid == sid) = false := by simp [hsid]
          simp [liveStep, ht, ht2, h1, h2]
      · simp [handleMessage, liveStep, ht, ht2]
  | alert a =>
    by_cases ha : a.status = .active <;> simp [handleMessage, liveStep, ha]
  | heartbeat => rfl
  | pong => rfl
  | other t => rfl

/-- Replaying messages folds `liveStep` over the initial Boolean liveness of
a sid. -/
theorem replayMsgs_rooms_any (fmt : String → String) (sid : String) :
    ∀ (ms : List WsMessage) (s : DashState),
      ((replayMsgs fmt ms s).rooms.any (fun r => r.sid == sid)) =
        ms.foldl (liveStep sid) (s.rooms.any (fun r => r.sid == sid)) := by
  intro ms
  induction ms with
  | nil => intro s; rfl
  | cons m ms ih =>
    intro s
    have h1 : replayMsgs fmt (m :: ms) s = replayMsgs fmt ms (handleMessage fmt m s) := rfl
    rw [h1, ih, handleMessage_rooms_any]
    rfl

/-- Claim C1: after replaying any sequence of WebSocket messages from the
initial state, the rooms list contains a room with a given sid exactly when
the last room notice for that sid announced `room_started` and no later
notice announced `room_finished` — regardless of interleaving with
messages about other rooms or of other kinds. -/
theorem rooms_replay_exactly_started_not_finished (fmt : String → String)
    (ms : List WsMessage) (sid : String) :
    (∃ r ∈ (replayMsgs fmt ms initState).rooms, r.sid = sid) ↔
      announcedLive sid ms = true := by
  have h : ((replayMsgs fmt ms initState).rooms.any (fun r => r.sid == sid)) =
      announcedLive sid ms :=
    replayMsgs_rooms_any fmt sid ms initState
  constructor
  · rintro ⟨r, hr, hsid⟩
    rw [← h]
    exact List.any_eq_true.mpr ⟨r, hr, by simp [hsid]⟩
  · intro ha
    obtain ⟨r, hr, hb⟩ := List.any_eq_true.mp (h.trans ha)
    exact ⟨r, hr, by simpa using hb⟩

/-- `pushChartPoint` keeps exactly the 60 most recent points of the extended
list. -/
theorem pushChartPoint_eq_lastN (p : ChartDataPoint) (prev : List ChartDataPoint) :
    pushChartPoint p prev = lastN 60 (prev ++ [p]) := by
  by_cases h : (prev ++ [p]).length > 60
  · simp only [pushChartPoint, lastN]
    rw [if_pos h]
  · simp only [pushChartPoint, lastN]
    rw [if_neg h, Nat.sub_eq_zero_of_le (Nat.le_of_not_lt h), List.drop_zero]

/-- The `lastN` suffix never exceeds `n` elements. -/
theorem lastN_length_le (n : Nat) (l : List α) : (lastN n l).length ≤ n := by
  simp only [lastN, List.length_drop]
  omega

/-- Taking the recent suffix, appending, and taking the recent suffix again
is the same as one recent suffix of the whole. -/
theorem lastN_append_lastN (n : Nat) (l t : List α) :
    lastN n (lastN n l ++ t) = lastN n (l ++ t) := by
  by_cases h : n ≤ l.length
  · unfold lastN
    have hk : l.length - n ≤ l.length := Nat.sub_le _ _
    rw [← List.drop_append_of_le_length hk, List.drop_drop]
    congr 1
    simp only [List.length_drop, List.length_append]
    omega
  · have h0 : l.length - n = 0 := by omega
    unfold lastN
    rw [h0, List.drop_zero]

/-- The chart after one message: a metrics update appends its point and
keeps the 60 most recent; every other message leaves the chart alone. -/
theorem handleMessage_chartData (fmt : String → String) (m : WsMessage)
    (s : DashState) :
    (handleMessage fmt m s).chartData =
      (match m with
        | .metricsUpdate d => lastN 60 (s.chartData ++ [mkChartPoint fmt d])
        | _ => s.chartData) := by
  cases m with
  | metricsUpdate d => simp [handleMessage, pushChartPoint_eq_lastN]
  | roomUpdate d =>
    simp only [handleMessage]
    split_ifs <;> rfl
  | alert a => by_cases ha : a.status = .active <;> simp [handleMessage, ha]
  | heartbeat => rfl
  | pong => rfl
  | other t => rfl

/-- Replaying messages from a chart within capacity yields the 60 most
recent of the starting chart extended by all arriving points, in arrival
order. -/
theorem replayMsgs_chartData (fmt : String → String) :
    ∀ (ms : List WsMessage) (s : DashState), s.chartData.length ≤ 60 →
      (replayMsgs fmt ms s).chartData = lastN 60 (s.chartData ++ chartPoints fmt ms) := by
  intro ms
  induction ms with
  | nil =>
    intro s h
    simp [replayMsgs, chartPoints, lastN, Nat.sub_eq_zero_of_le h]
  | cons m ms ih =>
    intro s h
    have hrep : replayMsgs fmt (m :: ms) s = replayMsgs fmt ms (handleMessage fmt m s) := rfl
    rw [hrep]
    have hc := handleMessage_chartData fmt m s
    cases m with
    | metricsUpdate d =>
      rw [ih _ (by rw [hc]; exact lastN_length_le 60 _), hc, lastN_append_lastN]
      simp [chartPoints]
    | roomUpdate d =>
      rw [ih _ (by rw [hc]; exact h), hc]
      simp [chartPoints]
    | alert a =>
      rw [ih _ (by rw [hc]; exact h), hc]
      simp [chartPoints]
    | heartbeat =>
      rw [ih _ (by rw [hc]; exact h), hc]
      simp [chartPoints]
    | pong =>
      rw [ih _ (by rw [hc]; exact h), hc]
      simp [chartPoints]
    | other t =>
      rw [ih _ (by rw [hc]; exact h), hc]
      simp [chartPoints]

/-- Claim C7 (amended): after any sequence of metrics_update messages (and
other WebSocket traffic) the chart holds exactly the 60 most recent points
in arrival (chronological) order, oldest evicted first, never exceeding 60;
a history refresh, in contrast, replaces the chart with the full fetched
history mapped to points, with no 60-point cap applied on that path. -/
theorem chartData_ring_buffer (fmt : String → String) (ms : List WsMessage) :
    (replayMsgs fmt ms initState).chartData = lastN 60 (chartPoints fmt ms) ∧
      (replayMsgs fmt ms initState).chartData.length ≤ 60 ∧
      ∀ (mo : Option SystemMetrics) (ro : Option (List Room))
        (ao : Option (List Alert × List Alert)) (hist : List SystemMetrics)
        (s : DashState),
        (refreshData fmt ⟨mo, ro, ao, some hist⟩ s).chartData =
          hist.map (mkChartPoint fmt) := by
  have h := replayMsgs_chartData fmt ms initState (by simp [initState])
  have h' : (replayMsgs fmt ms initState).chartData = lastN 60 (chartPoints fmt ms) := by
    simpa [initState] using h
  refine ⟨h', ?_, ?_⟩
  · rw [h']
    exact lastN_length_le 60 _
  · intro mo ro ao hist s
    cases mo <;> cases ro <;> cases ao <;> rfl

/-- Claim C7 counterexample: one history refresh whose response carries 61
snapshots installs 61 chart points — the chart exceeds the claimed 60-point
capacity, because the refresh path applies no cap. -/
theorem chartData_refresh_uncapped :
    (refreshData id ⟨none, none, none, some (List.replicate 61 sampleMetrics)⟩
        initState).chartData.length = 61 ∧
      ¬ (refreshData id ⟨none, none, none, some (List.replicate 61 sampleMetrics)⟩
          initState).chartData.length ≤ 60 := by
  have h : (refreshData id ⟨none, none, none, some (List.replicate 61 sampleMetrics)⟩
      initState).chartData = (List.replicate 61 sampleMetrics).map (mkChartPoint id) := rfl
  constructor
  · rw [h]
    simp
  · rw [h]
    simp

end Console
